import Mathlib

/-!
Shallow embedding of the simulation core of `gemini_agario/gemini_agario.py`
(a single-player agar.io-style game).

Modelling conventions:
* Python floats are modelled as real numbers (`ℝ`); `math.sqrt` is `Real.sqrt`.
* Methods that mutate objects become functions returning the updated state.
  `Player.eat(food)` may in principle write to both `self` and `food`, so its
  embedding returns the updated player, the (untouched) food, and the boolean
  result, mirroring the method's reads and writes exactly.
* Calls to `random.uniform` / `random.randint` become explicit parameters:
  a randomly drawn coordinate is a universally quantified real constrained to
  the interval the source draws from, and the stream of replacement `Food()`
  objects created in the main loop is a parameter `fresh : ℕ → Food`.
* The per-frame food-consumption pass of `main` (the `player.eat` loop that
  collects `eaten_food_indices`, then the `pop`/`append` replacement loop) is
  embedded literally as `eatLoop`, `trueIndices` and `replacementLoop`.
-/

namespace Agario

/-- Game settings from the source header (`WORLD_WIDTH = 2000`, ...). -/
def WORLD_WIDTH : ℝ := 2000

/-- Source: `WORLD_HEIGHT = 2000`. -/
def WORLD_HEIGHT : ℝ := 2000

/-- Source: `FOOD_COUNT = 200`. -/
def FOOD_COUNT : ℕ := 200

/-- Source: `INITIAL_PLAYER_RADIUS = 20`. -/
def INITIAL_PLAYER_RADIUS : ℝ := 20

/-- Source: `PLAYER_SPEED_FACTOR = 0.1`. -/
def PLAYER_SPEED_FACTOR : ℝ := 0.1

/-- Source: `MIN_PLAYER_RADIUS = 5`. -/
def MIN_PLAYER_RADIUS : ℝ := 5

/-- Source: `FOOD_RADIUS = 5`. -/
def FOOD_RADIUS : ℝ := 5

/-- A food item (`class Food(GameObject)`): position, radius and color.
The fields are those of `GameObject.__init__` that `Food` carries. -/
structure Food where
  x : ℝ
  y : ℝ
  radius : ℝ
  color : ℕ × ℕ × ℕ

/-- `Food.__init__`: the position is drawn by `random.uniform` from
`[-WORLD_WIDTH/2, WORLD_WIDTH/2] × [-WORLD_HEIGHT/2, WORLD_HEIGHT/2]` and the
color by `random.randint`; the drawn values are passed in explicitly here.
The radius is the constant `FOOD_RADIUS`. -/
def Food.spawn (x y : ℝ) (color : ℕ × ℕ × ℕ) : Food :=
  { x := x, y := y, radius := FOOD_RADIUS, color := color }

/-- The player (`class Player(GameObject)`): position, radius, color, name,
mass, movement target, and the Gemini description text with its timer. -/
structure Player where
  name : String
  color : ℕ × ℕ × ℕ
  x : ℝ
  y : ℝ
  radius : ℝ
  mass : ℝ
  target_x : ℝ
  target_y : ℝ
  gemini_description : String
  description_timer : ℝ

/-- `Player.__init__`: starts at the world center `(0, 0)` with radius
`INITIAL_PLAYER_RADIUS`, `mass = radius**2`, target at the start position,
empty description and zero timer. -/
def Player.init (name : String) (color : ℕ × ℕ × ℕ) : Player :=
  { name := name, color := color, x := 0, y := 0,
    radius := INITIAL_PLAYER_RADIUS, mass := INITIAL_PLAYER_RADIUS ^ 2,
    target_x := 0, target_y := 0,
    gemini_description := "", description_timer := 0 }

/-- `Player.update_target`: converts mouse screen coordinates to world
coordinates by adding the camera offset. -/
def Player.update_target (p : Player) (mouse_x mouse_y camera_x camera_y : ℝ) :
    Player :=
  { p with target_x := mouse_x + camera_x, target_y := mouse_y + camera_y }

/-- `Player.grow`: `mass += mass_increase`, then
`radius = sqrt(mass)`, then `radius = max(radius, MIN_PLAYER_RADIUS)`. -/
noncomputable def Player.grow (p : Player) (mass_increase : ℝ) : Player :=
  { p with
    mass := p.mass + mass_increase,
    radius := max (Real.sqrt (p.mass + mass_increase)) MIN_PLAYER_RADIUS }

/-- `Player.eat`: computes `distance = sqrt((self.x-food.x)**2 + (self.y-food.y)**2)`;
if `distance < self.radius` it calls `self.grow(food.radius**2)` and returns
`True`, otherwise returns `False`. The food object is only read, never
written, so it is returned unchanged in both branches. -/
noncomputable def Player.eat (p : Player) (food : Food) : Player × Food × Bool :=
  let distance := Real.sqrt ((p.x - food.x) ^ 2 + (p.y - food.y) ^ 2)
  if distance < p.radius then
    (p.grow (food.radius ^ 2), food, true)
  else
    (p, food, false)

/-- The speed computed inside `Player.move`:
`speed = PLAYER_SPEED_FACTOR * (INITIAL_PLAYER_RADIUS / self.radius)` followed
by `speed = max(speed, 0.1)`. -/
noncomputable def moveSpeed (radius : ℝ) : ℝ :=
  max (PLAYER_SPEED_FACTOR * (INITIAL_PLAYER_RADIUS / radius)) 0.1

/-- `Player.move`: if the distance to the target exceeds `1`, step toward the
target by `moveSpeed` along the normalized direction and clamp each coordinate
to `[-WORLD/2 + radius, WORLD/2 - radius]`; otherwise do nothing. -/
noncomputable def Player.move (p : Player) : Player :=
  let dx := p.target_x - p.x
  let dy := p.target_y - p.y
  let distance := Real.sqrt (dx ^ 2 + dy ^ 2)
  if 1 < distance then
    let speed := moveSpeed p.radius
    let x1 := p.x + dx / distance * speed
    let y1 := p.y + dy / distance * speed
    { p with
      x := max (-WORLD_WIDTH / 2 + p.radius) (min (WORLD_WIDTH / 2 - p.radius) x1),
      y := max (-WORLD_HEIGHT / 2 + p.radius) (min (WORLD_HEIGHT / 2 - p.radius) y1) }
  else
    p

/-- `spawn_food(count)`: builds a list of `count` fresh `Food()` objects; the
random draws inside `Food.__init__` are supplied by the stream `fresh`. -/
def spawn_food (count : ℕ) (fresh : ℕ → Food) : List Food :=
  (List.range count).map fresh

/-- The first consumption loop of `main`:
`for i, food in enumerate(food_list): if player.eat(food): ...` —
the player state is threaded through the calls and the boolean result of each
`eat` is recorded in order. -/
noncomputable def eatLoop : Player → List Food → Player × List Bool
  | p, [] => (p, [])
  | p, food :: rest =>
    let step := p.eat food
    let tail := eatLoop step.1 rest
    (tail.1, step.2.2 :: tail.2)

/-- The indices collected in `eaten_food_indices`: the positions (counting
from `k`) of the `true` entries, in ascending order. -/
def trueIndices : List Bool → ℕ → List ℕ
  | [], _ => []
  | b :: bs, k =>
    if b then k :: trueIndices bs (k + 1) else trueIndices bs (k + 1)

/-- The second loop of `main`:
`for i in sorted(eaten_food_indices, reverse=True): food_list.pop(i);
food_list.append(Food())` — each index is removed from the current list and a
fresh food is appended at the end; `k` counts how many fresh foods were used. -/
def replacementLoop (fresh : ℕ → Food) : List Food → List ℕ → ℕ → List Food
  | l, [], _ => l
  | l, i :: rest, k => replacementLoop fresh (l.eraseIdx i ++ [fresh k]) rest (k + 1)

/-- The complete per-frame consumption pass of `main` (lines 266-275): run the
eat loop, then replace every eaten food. `sorted(eaten_food_indices,
reverse=True)` is the reverse of the ascending index list. -/
noncomputable def resolveConsumption (p : Player) (foods : List Food)
    (fresh : ℕ → Food) : Player × List Food :=
  let pass := eatLoop p foods
  (pass.1, replacementLoop fresh foods ((trueIndices pass.2 0).reverse) 0)

/-- Source: `DESCRIPTION_DURATION = 5` (seconds) in `main`. -/
def DESCRIPTION_DURATION : ℝ := 5

/-- The success branch of the Gemini request in `main`:
`player.gemini_description = gemini_description_text;
player.description_timer = DESCRIPTION_DURATION`. -/
def applyGeminiSuccess (p : Player) (text : String) : Player :=
  { p with gemini_description := text, description_timer := DESCRIPTION_DURATION }

/-- The failure (`except`) branch of the Gemini request in `main`:
`player.gemini_description = "Gemini error :("; player.description_timer = 2`. -/
def applyGeminiFailure (p : Player) : Player :=
  { p with gemini_description := "Gemini error :(", description_timer := 2 }

/-! Concrete fixtures used by witnesses and counterexamples. -/

/-- A concrete player, exactly as `main` creates it (`Player("MyCell", ...)`
with some drawn color): at the origin with radius `20` and mass `400`. -/
def p0 : Player := Player.init "MyCell" (100, 100, 100)

/-- A concrete food at `(3, 4)`, distance `5` from the origin. -/
def f34 : Food := Food.spawn 3 4 (100, 100, 100)

/-- A concrete food at `(500, 500)`, far outside the player's radius. -/
def fFar : Food := Food.spawn 500 500 (100, 100, 100)

/-- A concrete food at `(0, 19)`: inside the initial radius `20`. -/
def foodA : Food := Food.spawn 0 19 (100, 100, 100)

/-- A concrete food at `(0, 20.5)`: outside the initial radius `20`, but
inside the radius `sqrt 425` the player has after eating `foodA`. -/
noncomputable def foodB : Food := Food.spawn 0 (41 / 2) (100, 100, 100)

/-- A concrete stream of replacement foods. -/
def freshF : ℕ → Food := fun _ => Food.spawn 0 0 (100, 100, 100)

/-- A player standing (and targeting) a point far outside the world bounds:
the distance to its target is `0`, so `move` does not touch its position. -/
def stuckPlayer : Player := { p0 with x := 5000, target_x := 5000 }

/-- A player at the origin whose target is far outside the world bounds. -/
def farTargetPlayer : Player := { p0 with target_x := 5000, target_y := 5000 }

/-! Helper lemmas about the consumption pass. -/

/-- The eat loop records one boolean per food. -/
theorem eatLoop_length (p : Player) (foods : List Food) :
    (eatLoop p foods).2.length = foods.length := by
  induction foods generalizing p with
  | nil => simp [eatLoop]
  | cons f rest ih => simp [eatLoop, ih]

/-- Every collected index is below the starting offset plus the list length. -/
theorem trueIndices_mem_lt (bs : List Bool) (k : ℕ) :
    ∀ i ∈ trueIndices bs k, i < k + bs.length := by
  induction bs generalizing k with
  | nil => simp [trueIndices]
  | cons b bs ih =>
    intro i hi
    cases b with
    | false =>
      simp only [trueIndices, Bool.false_eq_true, if_false] at hi
      have := ih (k + 1) i hi
      simp only [List.length_cons]
      omega
    | true =>
      simp only [trueIndices, if_true, List.mem_cons] at hi
      rcases hi with hi | hi
      · simp only [hi, List.length_cons]; omega
      · have := ih (k + 1) i hi
        simp only [List.length_cons]
        omega

/-- Each `pop`/`append` step keeps the list length unchanged, so the whole
replacement loop does, provided every index is in range. -/
theorem replacementLoop_length (fresh : ℕ → Food) (idxs : List ℕ) :
    ∀ (l : List Food) (k : ℕ), (∀ i ∈ idxs, i < l.length) →
      (replacementLoop fresh l idxs k).length = l.length := by
  induction idxs with
  | nil => intro l k _; simp [replacementLoop]
  | cons i rest ih =>
    intro l k h
    have hi : i < l.length := h i (by simp)
    have hlen : (l.eraseIdx i ++ [fresh k]).length = l.length := by
      have := List.length_eraseIdx_add_one hi
      simp only [List.length_append, List.length_singleton]
      omega
    have hrest : ∀ j ∈ rest, j < (l.eraseIdx i ++ [fresh k]).length := by
      intro j hj
      rw [hlen]
      exact h j (by simp [hj])
    calc (replacementLoop fresh l (i :: rest) k).length
        = (replacementLoop fresh (l.eraseIdx i ++ [fresh k]) rest (k + 1)).length := by
          rw [replacementLoop]
      _ = (l.eraseIdx i ++ [fresh k]).length := ih _ _ hrest
      _ = l.length := hlen

/-- The consumption pass preserves the food count. -/
theorem resolveConsumption_snd_length (p : Player) (foods : List Food)
    (fresh : ℕ → Food) :
    (resolveConsumption p foods fresh).2.length = foods.length := by
  simp only [resolveConsumption]
  apply replacementLoop_length
  intro i hi
  rw [List.mem_reverse] at hi
  have h := trueIndices_mem_lt (eatLoop p foods).2 0 i hi
  rw [eatLoop_length] at h
  omega

/-- The eat loop is a left fold through the player state: splitting the food
list splits the pass, with the second half starting from the player state
accumulated over the first half. -/
theorem eatLoop_append (p : Player) (xs ys : List Food) :
    eatLoop p (xs ++ ys) =
      ((eatLoop (eatLoop p xs).1 ys).1,
       (eatLoop p xs).2 ++ (eatLoop (eatLoop p xs).1 ys).2) := by
  induction xs generalizing p with
  | nil => simp [eatLoop]
  | cons f rest ih => simp [eatLoop, ih]

/-! Claim theorems. -/

/-- Claim C1: `Player.eat` returns `true` iff the Euclidean distance between
the two centers is strictly below the player's radius — a condition
independent of the food's radius — and exactly on success the mass grows by
the food's radius squared, while a failure adds no mass. -/
theorem claim_C1_eat_iff_within_radius (p : Player) (f : Food) :
    ((p.eat f).2.2 = true ↔
      Real.sqrt ((p.x - f.x) ^ 2 + (p.y - f.y) ^ 2) < p.radius)
    ∧ (∀ r : ℝ, (p.eat { f with radius := r }).2.2 = (p.eat f).2.2)
    ∧ ((p.eat f).2.2 = true → (p.eat f).1.mass = p.mass + f.radius ^ 2)
    ∧ ((p.eat f).2.2 = false → (p.eat f).1.mass = p.mass) := by
  by_cases h : Real.sqrt ((p.x - f.x) ^ 2 + (p.y - f.y) ^ 2) < p.radius
  · simp [Player.eat, Player.grow, h]
  · simp [Player.eat, h]

/-- Witness for C1: the initial player eats a food at `(3, 4)` (distance `5 <
20`) and its mass rises from `400` by the food's area `25`. -/
theorem claim_C1_witness :
    (p0.eat f34).2.2 = true ∧ (p0.eat f34).1.mass = p0.mass + f34.radius ^ 2 := by
  have h := claim_C1_eat_iff_within_radius p0 f34
  have hd : Real.sqrt ((p0.x - f34.x) ^ 2 + (p0.y - f34.y) ^ 2) < p0.radius := by
    have he : ((p0.x - f34.x) ^ 2 + (p0.y - f34.y) ^ 2 : ℝ) = 25 := by
      norm_num [p0, f34, Player.init, Food.spawn]
    rw [he]
    have h20 : (0 : ℝ) < p0.radius := by
      norm_num [p0, Player.init, INITIAL_PLAYER_RADIUS]
    rw [Real.sqrt_lt' h20]
    norm_num [p0, Player.init, INITIAL_PLAYER_RADIUS]
  have ht : (p0.eat f34).2.2 = true := h.1.mpr hd
  exact ⟨ht, h.2.2.1 ht⟩

/-- Claim C2: one consumption pass leaves the number of foods unchanged —
every eaten food is popped and a fresh one appended, none is dropped. -/
theorem claim_C2_population_invariant (p : Player) (foods : List Food)
    (fresh : ℕ → Food) :
    (resolveConsumption p foods fresh).2.length = foods.length :=
  resolveConsumption_snd_length p foods fresh

/-- Claim C10: `Player.eat` never writes to the food it tests, and when it
returns `false` the player's entire state is returned unchanged. -/
theorem claim_C10_eat_frame (p : Player) (f : Food) :
    (p.eat f).2.1 = f ∧ ((p.eat f).2.2 = false → (p.eat f).1 = p) := by
  by_cases h : Real.sqrt ((p.x - f.x) ^ 2 + (p.y - f.y) ^ 2) < p.radius
  · simp [Player.eat, h]
  · simp [Player.eat, h]

/-- Witness for C10: a failed test against a far-away food leaves the initial
player bit-for-bit unchanged. -/
theorem claim_C10_witness :
    (p0.eat fFar).2.2 = false ∧ (p0.eat fFar).1 = p0 := by
  have h := claim_C10_eat_frame p0 fFar
  have hn : ¬ Real.sqrt ((p0.x - fFar.x) ^ 2 + (p0.y - fFar.y) ^ 2) < p0.radius := by
    rw [not_lt]
    have he : ((p0.x - fFar.x) ^ 2 + (p0.y - fFar.y) ^ 2 : ℝ) = 500000 := by
      norm_num [p0, fFar, Player.init, Food.spawn]
    rw [he]
    have h20 : (p0.radius : ℝ) = 20 := by
      norm_num [p0, Player.init, INITIAL_PLAYER_RADIUS]
    rw [h20, Real.le_sqrt (by norm_num) (by norm_num)]
    norm_num
  have hf : (p0.eat fFar).2.2 = false := by
    simp [Player.eat, hn]
  exact ⟨hf, h.2 hf⟩

/-- Clamping a value to `[-W/2 + r, W/2 - r]` lands in that interval whenever
the interval is nonempty, i.e. whenever `r ≤ W/2`. -/
theorem clamp_bound (W r v : ℝ) (hr : r ≤ W / 2) :
    |max (-W / 2 + r) (min (W / 2 - r) v)| ≤ W / 2 - r := by
  rw [abs_le]
  constructor
  · have h1 : -W / 2 + r ≤ max (-W / 2 + r) (min (W / 2 - r) v) := le_max_left _ _
    linarith
  · apply max_le
    · linarith
    · have h2 : min (W / 2 - r) v ≤ W / 2 - r := min_le_left _ _
      linarith

/-- Counterexample to C3 as stated: a player already standing outside the
world at `x = 5000` whose target is its own position does not move (the
distance `0` is not greater than `1`), so no clamping happens and the bound
fails after `move`. -/
theorem claim_C3_counterexample :
    ¬ (|(Player.move stuckPlayer).x| ≤
        WORLD_WIDTH / 2 - (Player.move stuckPlayer).radius) := by
  have hc : ¬ (1 < Real.sqrt ((stuckPlayer.target_x - stuckPlayer.x) ^ 2 +
      (stuckPlayer.target_y - stuckPlayer.y) ^ 2)) := by
    have he : ((stuckPlayer.target_x - stuckPlayer.x) ^ 2 +
        (stuckPlayer.target_y - stuckPlayer.y) ^ 2 : ℝ) = 0 := by
      norm_num [stuckPlayer, p0, Player.init]
    rw [he, Real.sqrt_zero]
    norm_num
  have hmv : Player.move stuckPlayer = stuckPlayer := by
    simp [Player.move, hc]
  rw [hmv, not_le]
  have hx : stuckPlayer.x = 5000 := rfl
  have hr : stuckPlayer.radius = 20 := by
    norm_num [stuckPlayer, p0, Player.init, INITIAL_PLAYER_RADIUS]
  rw [hx, hr, abs_of_nonneg (by norm_num : (0 : ℝ) ≤ 5000)]
  norm_num [WORLD_WIDTH]

/-- Claim C3 (amended): when the starting position already satisfies the
clamped invariant, one `move` call preserves it for every target, including
targets far outside the world bounds. -/
theorem claim_C3_move_preserves_bounds (p : Player)
    (hx : |p.x| ≤ WORLD_WIDTH / 2 - p.radius)
    (hy : |p.y| ≤ WORLD_HEIGHT / 2 - p.radius) :
    |(Player.move p).x| ≤ WORLD_WIDTH / 2 - (Player.move p).radius ∧
    |(Player.move p).y| ≤ WORLD_HEIGHT / 2 - (Player.move p).radius := by
  have hrx : p.radius ≤ WORLD_WIDTH / 2 := by
    have := abs_nonneg p.x
    linarith
  have hry : p.radius ≤ WORLD_HEIGHT / 2 := by
    have := abs_nonneg p.y
    linarith
  by_cases h : 1 < Real.sqrt ((p.target_x - p.x) ^ 2 + (p.target_y - p.y) ^ 2)
  · constructor
    · simpa [Player.move, h] using
        clamp_bound WORLD_WIDTH p.radius
          (p.x + (p.target_x - p.x) /
            Real.sqrt ((p.target_x - p.x) ^ 2 + (p.target_y - p.y) ^ 2) *
            moveSpeed p.radius) hrx
    · simpa [Player.move, h] using
        clamp_bound WORLD_HEIGHT p.radius
          (p.y + (p.target_y - p.y) /
            Real.sqrt ((p.target_x - p.x) ^ 2 + (p.target_y - p.y) ^ 2) *
            moveSpeed p.radius) hry
  · constructor
    · simpa [Player.move, h] using hx
    · simpa [Player.move, h] using hy

/-- Witness for C3 (amended): the freshly created player, aiming at the
far-away point `(5000, 5000)`, still satisfies the bound after `move`. -/
theorem claim_C3_witness :
    |(Player.move farTargetPlayer).x| ≤
      WORLD_WIDTH / 2 - (Player.move farTargetPlayer).radius ∧
    |(Player.move farTargetPlayer).y| ≤
      WORLD_HEIGHT / 2 - (Player.move farTargetPlayer).radius :=
  claim_C3_move_preserves_bounds farTargetPlayer
    (by norm_num [farTargetPlayer, p0, Player.init, INITIAL_PLAYER_RADIUS,
      WORLD_WIDTH])
    (by norm_num [farTargetPlayer, p0, Player.init, INITIAL_PLAYER_RADIUS,
      WORLD_HEIGHT])

/-- Counterexample to C5 as stated: `mass_delta = 0` is allowed by the
claim's hypothesis `mass_delta ≥ 0`, yet `grow 0` leaves the mass unchanged,
so the increase is not strict. -/
theorem claim_C5_counterexample :
    (0 : ℝ) ≥ 0 ∧ ¬ ((p0.grow 0).mass > p0.mass) := by
  constructor
  · norm_num
  · show ¬ (p0.mass + 0 > p0.mass)
    simp

/-- Claim C5 (amended): `grow` adds exactly the delta to the mass — strictly
increasing for positive deltas, non-decreasing for non-negative ones — and
afterwards the radius equals `max (sqrt mass) MIN_PLAYER_RADIUS`, a pure
function of the updated mass. -/
theorem claim_C5_grow_monotone (p : Player) (d : ℝ) :
    (0 < d → (p.grow d).mass > p.mass)
    ∧ (0 ≤ d → (p.grow d).mass ≥ p.mass)
    ∧ (p.grow d).mass = p.mass + d
    ∧ (p.grow d).radius = max (Real.sqrt ((p.grow d).mass)) MIN_PLAYER_RADIUS := by
  refine ⟨?_, ?_, rfl, rfl⟩
  · intro h
    show p.mass + d > p.mass
    linarith
  · intro h
    show p.mass + d ≥ p.mass
    linarith

/-- Witness for C5 (amended): growing the initial player by `1` strictly
increases its mass. -/
theorem claim_C5_witness : (p0.grow 1).mass > p0.mass :=
  (claim_C5_grow_monotone p0 1).1 (by norm_num)

/-- Counterexample to C6 as stated: `grow` has no defensive guard — a
negative delta changes the mass. -/
theorem claim_C6_counterexample :
    ((-100 : ℝ) < 0) ∧ (p0.grow (-100)).mass ≠ p0.mass := by
  constructor
  · norm_num
  · show p0.mass + (-100) ≠ p0.mass
    norm_num

/-- Claim C6 (amended): `grow` applies a negative delta unconditionally, so
the mass strictly decreases — there is no defensive rejection. -/
theorem claim_C6_negative_delta_shrinks (p : Player) (d : ℝ) (h : d < 0) :
    (p.grow d).mass = p.mass + d ∧ (p.grow d).mass < p.mass := by
  refine ⟨rfl, ?_⟩
  show p.mass + d < p.mass
  linarith

/-- Witness for C6 (amended): growing the initial player by `-100` drops its
mass below the starting value. -/
theorem claim_C6_witness : (p0.grow (-100)).mass < p0.mass :=
  (claim_C6_negative_delta_shrinks p0 (-100) (by norm_num)).2

/-- Counterexample to C7 as stated: radii `40 < 80` both hit the `0.1` speed
floor, so the larger player is not strictly slower — the speeds are equal. -/
theorem claim_C7_counterexample :
    (40 : ℝ) < 80 ∧ moveSpeed 40 = 0.1 ∧ moveSpeed 80 = 0.1
    ∧ ¬ (moveSpeed 80 < moveSpeed 40) := by
  have h40 : moveSpeed 40 = 0.1 := by
    unfold moveSpeed PLAYER_SPEED_FACTOR INITIAL_PLAYER_RADIUS
    rw [max_eq_right (by norm_num)]
  have h80 : moveSpeed 80 = 0.1 := by
    unfold moveSpeed PLAYER_SPEED_FACTOR INITIAL_PLAYER_RADIUS
    rw [max_eq_right (by norm_num)]
  exact ⟨by norm_num, h40, h80, by rw [h40, h80]; exact lt_irrefl _⟩

/-- Claim C7 (amended): the per-step speed is
`max (PLAYER_SPEED_FACTOR * (INITIAL_PLAYER_RADIUS / radius)) 0.1`; it is
antitone in the radius, and strictly so while the larger radius is still
below `INITIAL_PLAYER_RADIUS`, where the floor is inactive. -/
theorem claim_C7_speed_formula_antitone (r1 r2 : ℝ) (h1 : 0 < r1)
    (h12 : r1 < r2) :
    moveSpeed r1 = max (PLAYER_SPEED_FACTOR * (INITIAL_PLAYER_RADIUS / r1)) 0.1
    ∧ moveSpeed r2 ≤ moveSpeed r1
    ∧ (r2 < INITIAL_PLAYER_RADIUS → moveSpeed r2 < moveSpeed r1) := by
  have h2 : (0 : ℝ) < r2 := lt_trans h1 h12
  refine ⟨rfl, ?_, ?_⟩
  · unfold moveSpeed
    apply max_le_max _ le_rfl
    unfold PLAYER_SPEED_FACTOR INITIAL_PLAYER_RADIUS
    have hd : (20 : ℝ) / r2 ≤ 20 / r1 := by
      rw [div_le_div_iff₀ h2 h1]
      nlinarith
    nlinarith
  · intro hr2
    have hr1lt : r1 < INITIAL_PLAYER_RADIUS := lt_trans h12 hr2
    have e2 : (0.1 : ℝ) ≤ PLAYER_SPEED_FACTOR * (INITIAL_PLAYER_RADIUS / r2) := by
      unfold INITIAL_PLAYER_RADIUS at hr2
      unfold PLAYER_SPEED_FACTOR INITIAL_PLAYER_RADIUS
      have hd : (1 : ℝ) < 20 / r2 := (one_lt_div h2).mpr hr2
      nlinarith
    have e1 : (0.1 : ℝ) ≤ PLAYER_SPEED_FACTOR * (INITIAL_PLAYER_RADIUS / r1) := by
      unfold INITIAL_PLAYER_RADIUS at hr1lt
      unfold PLAYER_SPEED_FACTOR INITIAL_PLAYER_RADIUS
      have hd : (1 : ℝ) < 20 / r1 := (one_lt_div h1).mpr hr1lt
      nlinarith
    unfold moveSpeed
    rw [max_eq_left e2, max_eq_left e1]
    unfold PLAYER_SPEED_FACTOR INITIAL_PLAYER_RADIUS
    have hd : (20 : ℝ) / r2 < 20 / r1 := by
      rw [div_lt_div_iff₀ h2 h1]
      nlinarith
    nlinarith

/-- Witness for C7 (amended): with both radii below `20` the floor is
inactive and the larger radius `19` is strictly slower than `10`. -/
theorem claim_C7_witness : moveSpeed 19 < moveSpeed 10 :=
  (claim_C7_speed_formula_antitone 10 19 (by norm_num) (by norm_num)).2.2
    (by norm_num [INITIAL_PLAYER_RADIUS])

/-- Counterexample to C8 as stated: `x = 1000` lies in the interval
`random.uniform` draws from, yet a food spawned there overhangs the world
edge: `|1000| > WORLD_WIDTH/2 - FOOD_RADIUS = 995`. -/
theorem claim_C8_counterexample :
    (-(WORLD_WIDTH / 2) ≤ (1000 : ℝ) ∧ (1000 : ℝ) ≤ WORLD_WIDTH / 2)
    ∧ ¬ (|(Food.spawn 1000 0 (100, 100, 100)).x| ≤
          WORLD_WIDTH / 2 - (Food.spawn 1000 0 (100, 100, 100)).radius) := by
  refine ⟨⟨by norm_num [WORLD_WIDTH], by norm_num [WORLD_WIDTH]⟩, ?_⟩
  rw [not_le]
  have hx : (Food.spawn 1000 0 (100, 100, 100)).x = 1000 := rfl
  have hr : (Food.spawn 1000 0 (100, 100, 100)).radius = 5 := by
    norm_num [Food.spawn, FOOD_RADIUS]
  rw [hx, hr, abs_of_nonneg (by norm_num : (0 : ℝ) ≤ 1000)]
  norm_num [WORLD_WIDTH]

/-- Claim C8 (amended): a freshly created food's center — at world-init and
as a replacement alike — lies within the world bounds (`|x| ≤ half width`,
`|y| ≤ half height`), and its radius is the constant `FOOD_RADIUS`; the
position is not inset by the radius, so the disc may overhang the edge. -/
theorem claim_C8_spawn_center_in_bounds (x y : ℝ) (c : ℕ × ℕ × ℕ)
    (hx1 : -(WORLD_WIDTH / 2) ≤ x) (hx2 : x ≤ WORLD_WIDTH / 2)
    (hy1 : -(WORLD_HEIGHT / 2) ≤ y) (hy2 : y ≤ WORLD_HEIGHT / 2) :
    |(Food.spawn x y c).x| ≤ WORLD_WIDTH / 2
    ∧ |(Food.spawn x y c).y| ≤ WORLD_HEIGHT / 2
    ∧ (Food.spawn x y c).radius = FOOD_RADIUS := by
  refine ⟨?_, ?_, rfl⟩
  · show |x| ≤ WORLD_WIDTH / 2
    rw [abs_le]
    constructor <;> linarith
  · show |y| ≤ WORLD_HEIGHT / 2
    rw [abs_le]
    constructor <;> linarith

/-- Witness for C8 (amended): a food spawned at the origin is within
bounds. -/
theorem claim_C8_witness :
    |(Food.spawn 0 0 (100, 100, 100)).x| ≤ WORLD_WIDTH / 2 :=
  (claim_C8_spawn_center_in_bounds 0 0 (100, 100, 100)
    (by norm_num [WORLD_WIDTH]) (by norm_num [WORLD_WIDTH])
    (by norm_num [WORLD_HEIGHT]) (by norm_num [WORLD_HEIGHT])).1

/-- Counterexample to C9 as stated: the failure branch assigns a `2`-second
timer while the success branch assigns `DESCRIPTION_DURATION = 5` seconds —
the durations differ. -/
theorem claim_C9_counterexample :
    (applyGeminiFailure p0).description_timer ≠
      (applyGeminiSuccess p0 "A quirky cell").description_timer := by
  show (2 : ℝ) ≠ DESCRIPTION_DURATION
  norm_num [DESCRIPTION_DURATION]

/-- Claim C9 (amended): a failed request is handled locally and non-fatally —
the text becomes the placeholder `"Gemini error :("` and only the description
fields change — but its timer is `2` seconds, shorter than the
`DESCRIPTION_DURATION = 5` seconds a success assigns. -/
theorem claim_C9_failure_branch (p : Player) (t : String) :
    (applyGeminiFailure p).gemini_description = "Gemini error :("
    ∧ (applyGeminiFailure p).description_timer = 2
    ∧ (applyGeminiSuccess p t).description_timer = DESCRIPTION_DURATION
    ∧ (applyGeminiFailure p).mass = p.mass
    ∧ (applyGeminiFailure p).x = p.x
    ∧ (applyGeminiFailure p).y = p.y
    ∧ (applyGeminiFailure p).radius = p.radius
    ∧ (applyGeminiFailure p).description_timer ≠
        (applyGeminiSuccess p t).description_timer := by
  refine ⟨rfl, rfl, rfl, rfl, rfl, rfl, rfl, ?_⟩
  show (2 : ℝ) ≠ DESCRIPTION_DURATION
  norm_num [DESCRIPTION_DURATION]

/-- Counterexample to C4 as stated: the pass is order-dependent. The initial
player (radius `20`) eats `foodA` at distance `19` and grows to radius
`sqrt 425 ≈ 20.6`; `foodB` at distance `20.5` is then in reach, so the order
`[foodA, foodB]` ends with mass `450`. In the order `[foodB, foodA]`, `foodB`
is tested first against radius `20` and missed, so the pass ends with mass
`425`. -/
theorem claim_C4_counterexample :
    (resolveConsumption p0 [foodA, foodB] freshF).1.mass ≠
      (resolveConsumption p0 [foodB, foodA] freshF).1.mass := by
  have hrad0 : p0.radius = 20 := by
    norm_num [p0, Player.init, INITIAL_PLAYER_RADIUS]
  have hcondA0 : Real.sqrt ((p0.x - foodA.x) ^ 2 + (p0.y - foodA.y) ^ 2) <
      p0.radius := by
    have he : ((p0.x - foodA.x) ^ 2 + (p0.y - foodA.y) ^ 2 : ℝ) = 361 := by
      norm_num [p0, foodA, Player.init, Food.spawn]
    rw [he, Real.sqrt_lt' (by rw [hrad0]; norm_num), hrad0]
    norm_num
  have hAeq : p0.eat foodA = (p0.grow (foodA.radius ^ 2), foodA, true) := by
    simp [Player.eat, hcondA0]
  have hcondB0 : ¬ (Real.sqrt ((p0.x - foodB.x) ^ 2 + (p0.y - foodB.y) ^ 2) <
      p0.radius) := by
    rw [not_lt]
    have he : ((p0.x - foodB.x) ^ 2 + (p0.y - foodB.y) ^ 2 : ℝ) = 1681 / 4 := by
      norm_num [p0, foodB, Player.init, Food.spawn]
    rw [he, hrad0, Real.le_sqrt (by norm_num) (by norm_num)]
    norm_num
  have hBeq0 : p0.eat foodB = (p0, foodB, false) := by
    simp [Player.eat, hcondB0]
  have hmass1 : (p0.grow (foodA.radius ^ 2)).mass = 425 := by
    show p0.mass + foodA.radius ^ 2 = 425
    norm_num [p0, foodA, Player.init, Food.spawn, INITIAL_PLAYER_RADIUS,
      FOOD_RADIUS]
  have hrad1 : (p0.grow (foodA.radius ^ 2)).radius = Real.sqrt 425 := by
    show max (Real.sqrt (p0.mass + foodA.radius ^ 2)) MIN_PLAYER_RADIUS =
      Real.sqrt 425
    rw [show (p0.mass + foodA.radius ^ 2 : ℝ) = 425 from by
      norm_num [p0, foodA, Player.init, Food.spawn, INITIAL_PLAYER_RADIUS,
        FOOD_RADIUS]]
    rw [max_eq_left]
    rw [MIN_PLAYER_RADIUS, Real.le_sqrt (by norm_num) (by norm_num)]
    norm_num
  have hcondB1 : Real.sqrt (((p0.grow (foodA.radius ^ 2)).x - foodB.x) ^ 2 +
      ((p0.grow (foodA.radius ^ 2)).y - foodB.y) ^ 2) <
      (p0.grow (foodA.radius ^ 2)).radius := by
    have hx1 : (p0.grow (foodA.radius ^ 2)).x = p0.x := rfl
    have hy1 : (p0.grow (foodA.radius ^ 2)).y = p0.y := rfl
    have he : (((p0.grow (foodA.radius ^ 2)).x - foodB.x) ^ 2 +
        ((p0.grow (foodA.radius ^ 2)).y - foodB.y) ^ 2 : ℝ) = 1681 / 4 := by
      rw [hx1, hy1]
      norm_num [p0, foodB, Player.init, Food.spawn]
    rw [he, hrad1]
    exact Real.sqrt_lt_sqrt (by norm_num) (by norm_num)
  have hBeq1 : (p0.grow (foodA.radius ^ 2)).eat foodB =
      ((p0.grow (foodA.radius ^ 2)).grow (foodB.radius ^ 2), foodB, true) := by
    simp [Player.eat, hcondB1]
  have l1 : eatLoop p0 [foodA, foodB] =
      ((p0.grow (foodA.radius ^ 2)).grow (foodB.radius ^ 2), [true, true]) := by
    simp [eatLoop, hAeq, hBeq1]
  have l2 : eatLoop p0 [foodB, foodA] =
      (p0.grow (foodA.radius ^ 2), [false, true]) := by
    simp [eatLoop, hBeq0, hAeq]
  have hmass2 : ((p0.grow (foodA.radius ^ 2)).grow (foodB.radius ^ 2)).mass =
      450 := by
    show (p0.grow (foodA.radius ^ 2)).mass + foodB.radius ^ 2 = 450
    rw [hmass1]
    norm_num [foodB, Food.spawn, FOOD_RADIUS]
  show (eatLoop p0 [foodA, foodB]).1.mass ≠ (eatLoop p0 [foodB, foodA]).1.mass
  rw [l1, l2]
  show ((p0.grow (foodA.radius ^ 2)).grow (foodB.radius ^ 2)).mass ≠
    (p0.grow (foodA.radius ^ 2)).mass
  rw [hmass1, hmass2]
  norm_num

/-- Claim C4 (amended): the pass is a left fold through the player state —
consumables never interact with each other directly, only through the player
state accumulated so far (splitting the list splits the pass) — and the
resulting consumable count is the same for every permutation of the list;
order-independence of the resulting mass and consumed set does not hold,
because the player grows mid-pass. -/
theorem claim_C4_fold_decomposition (p : Player) (xs ys l l' : List Food)
    (fresh : ℕ → Food) (hperm : l.Perm l') :
    eatLoop p (xs ++ ys) =
      ((eatLoop (eatLoop p xs).1 ys).1,
       (eatLoop p xs).2 ++ (eatLoop (eatLoop p xs).1 ys).2)
    ∧ (resolveConsumption p l fresh).2.length =
        (resolveConsumption p l' fresh).2.length := by
  refine ⟨eatLoop_append p xs ys, ?_⟩
  rw [resolveConsumption_snd_length, resolveConsumption_snd_length]
  exact hperm.length_eq

/-- Witness for C4 (amended): on the two orderings from the counterexample,
the food population size after the pass is nevertheless the same. -/
theorem claim_C4_witness :
    (resolveConsumption p0 [foodA, foodB] freshF).2.length =
      (resolveConsumption p0 [foodB, foodA] freshF).2.length :=
  (claim_C4_fold_decomposition p0 [] [] [foodA, foodB] [foodB, foodA] freshF
    (List.Perm.swap foodB foodA [])).2

end Agario
